import Mathlib

/-
Verification development for the ai-chatbot-pro-m1 repository.

The repository has two server generations sharing one design:
  * working_chatbot.py + api_server.py        (the "v1" system), and
  * src/api_server.py + src/advanced_llm.py   (the "v2" / advanced system).
Python dictionaries are modelled as insertion-ordered association lists
(`List (String × α)`) with the usual get/insert/erase operations; wall-clock
readings (time.time(), datetime.now()) are inputs of the modelled operations,
timestamps are integers counting seconds.
-/

set_option autoImplicit false
set_option maxRecDepth 8000

namespace ChatbotPro

/-- Lookup in an insertion-ordered dictionary (Python `d[k]` / `d.get(k)`). -/
def dictGet {α : Type} : List (String × α) → String → Option α
  | [], _ => none
  | (k2, v) :: rest, k => if k2 = k then some v else dictGet rest k

/-- Python `d[k] = v`: replace in place when the key is present, else append. -/
def dictInsert {α : Type} : List (String × α) → String → α → List (String × α)
  | [], k, v => [(k, v)]
  | (k2, v2) :: rest, k, v =>
    if k2 = k then (k, v) :: rest else (k2, v2) :: dictInsert rest k v

/-- Python `d.pop(k, None)` / `del d[k]` (keys are unique in a Python dict). -/
def dictErase {α : Type} : List (String × α) → String → List (String × α)
  | [], _ => []
  | (k2, v2) :: rest, k =>
    if k2 = k then dictErase rest k else (k2, v2) :: dictErase rest k

/-- ASCII case-folding of one character.  Python `str.lower()` restricted to
the ASCII range, which covers every keyword and message in the catalogs (core
`String.toLower` is avoided because the kernel cannot evaluate it). -/
def py_lower_char (c : Char) : Char :=
  if 65 ≤ c.toNat ∧ c.toNat ≤ 90 then Char.ofNat (c.toNat + 32) else c

/-- Python `s.lower()` (ASCII case-folding). -/
def py_lower (s : String) : String := ⟨s.data.map py_lower_char⟩

/-- Contiguous-sublist test on character lists, mirroring Python `kw in s`. -/
def containsSub (msg kw : List Char) : Bool :=
  kw.isPrefixOf msg ||
    match msg with
    | [] => false
    | _ :: rest => containsSub rest kw

/-- Python substring containment `kw in msg` on strings. -/
def strIn (kw msg : String) : Bool :=
  containsSub msg.data kw.data

/-- Canned block for keyword "memory" of personality technical_expert
(working_chatbot.py, `_load_personalities`). -/
def te_memory_block : String :=
  "For Python API memory optimization, here\x27s my systematic approach:\n\n**1. Memory Profiling**\n- Use \x60memory_profiler\x60: \x60pip install memory-profiler\x60\n- Add \x60@profile\x60 decorator to functions\n- Run: \x60python -m memory_profiler your_script.py\x60\n\n**2. Code Optimizations**\n- Replace lists with generators for large datasets\n- Use \x60__slots__\x60 in classes to reduce memory overhead\n- Implement connection pooling for databases\n- Clear large variables with \x60del variable_name\x60\n\n**3. Architecture Changes**\n- Implement caching with Redis/Memcached\n- Use streaming for large file processing\n- Consider microservices for heavy operations\n\n**4. Monitoring**\n- Set up memory alerts\n- Track memory usage over time\n- Profile production regularly\n\nWhat\x27s your current memory usage pattern? Are you processing large files or handling many concurrent requests?"

/-- Canned block for keyword "performance" of personality technical_expert. -/
def te_performance_block : String :=
  "API performance optimization strategy:\n\n**1. Database Layer**\n- Add proper indexes to frequently queried columns\n- Use connection pooling (SQLAlchemy, psycopg2-pool)\n- Optimize queries (avoid N+1 problems)\n- Consider read replicas for scaling\n\n**2. Application Layer**\n- Implement async/await for I/O operations\n- Use caching (Redis) for expensive computations\n- Optimize serialization (use orjson instead of json)\n- Profile with cProfile to find bottlenecks\n\n**3. Infrastructure**\n- Use load balancers for horizontal scaling\n- Implement CDN for static assets\n- Set up proper monitoring (DataDog, New Relic)\n- Consider containerization with Docker\n\n**4. Code Optimizations**\n- Use list comprehensions over loops\n- Avoid global variables\n- Implement proper error handling\n- Use appropriate data structures\n\nWhat\x27s your current API response time? Where are you seeing the biggest bottlenecks?"

/-- Canned block for keyword "debug" of personality technical_expert. -/
def te_debug_block : String :=
  "Systematic debugging approach for production issues:\n\n**1. Information Gathering**\n- Collect error logs, stack traces, and system metrics\n- Reproduce the issue in a controlled environment\n- Document when the issue started and what changed\n\n**2. Isolation Strategy**\n- Use binary search to narrow down the problem\n- Comment out code sections to isolate the issue\n- Test with minimal data sets\n\n**3. Debugging Tools**\n- Use \x60pdb\x60 for interactive debugging: \x60import pdb; pdb.set_trace()\x60\n- Add strategic logging with different levels\n- Use IDE debuggers for complex logic\n- Implement health checks and monitoring\n\n**4. Testing & Validation**\n- Write unit tests to prevent regression\n- Use integration tests for API endpoints\n- Implement automated testing in CI/CD\n\nWhat specific error are you encountering? Do you have logs or stack traces to share?"

/-- Canned block for keyword "story" of personality creative_partner. -/
def cp_story_block : String :=
  "Exciting story concept! Let\x27s develop this systematically:\n\n**1. Core Elements**\n- **Protagonist**: Who is your main character? What makes them unique?\n- **Desire**: What do they want more than anything?\n- **Obstacle**: What\x27s preventing them from getting it?\n- **Stakes**: What happens if they fail?\n\n**2. Plot Structure**\n- **Hook**: What grabs readers in the first chapter?\n- **Inciting Incident**: What disrupts their normal world?\n- **Rising Action**: How does tension escalate?\n- **Climax**: Where does everything come to a head?\n- **Resolution**: How is the conflict resolved?\n\n**3. Story Development**\n- **Theme**: What deeper meaning are you exploring?\n- **Setting**: How does the world influence the story?\n- **Voice**: What\x27s your narrative style?\n- **Pacing**: Balance action with character development\n\n**4. Writing Process**\n- Start with character motivation\n- Outline major plot points\n- Write consistently (daily word count goals)\n- Don\x27t edit while drafting\n\nWhat genre are you envisioning? What\x27s the emotional core of your story?"

/-- Canned block for keyword "character" of personality creative_partner. -/
def cp_character_block : String :=
  "Character development is the heart of great storytelling:\n\n**1. Psychology & Motivation**\n- **Deepest Desire**: What do they want most in the world?\n- **Greatest Fear**: What terrifies them?\n- **Fatal Flaw**: What weakness could destroy them?\n- **Internal Conflict**: How do they sabotage themselves?\n\n**2. Background & History**\n- **Defining Moment**: What past event shaped who they are?\n- **Relationships**: How do they connect with others?\n- **Secrets**: What are they hiding?\n- **Beliefs**: What do they value most?\n\n**3. Character Arc**\n- **Starting Point**: Who are they at the beginning?\n- **Catalyst**: What forces them to change?\n- **Resistance**: How do they fight change?\n- **Transformation**: Who do they become?\n\n**4. Character Voice**\n- **Speech Patterns**: How do they talk?\n- **Thought Processes**: How do they think?\n- **Actions**: What do they do under pressure?\n- **Contradictions**: What makes them complex?\n\nWho is your protagonist? What\x27s their role in the story you want to tell?"

/-- Canned block for keyword "plot" of personality creative_partner. -/
def cp_plot_block : String :=
  "Plot development techniques for compelling narratives:\n\n**1. Story Structure**\n- **Three-Act Structure**: Setup, confrontation, resolution\n- **Hero\x27s Journey**: Classic mythic structure\n- **Save the Cat**: Modern screenplay structure\n- **Freytag\x27s Pyramid**: Traditional dramatic structure\n\n**2. Conflict Development**\n- **External Conflict**: What challenges face your character?\n- **Internal Conflict**: What inner struggles do they have?\n- **Interpersonal Conflict**: Relationship tensions\n- **Societal Conflict**: Larger world issues\n\n**3. Plot Techniques**\n- **Plant and Payoff**: Set up elements that become important later\n- **Rising Stakes**: Each obstacle should be bigger than the last\n- **Ticking Clock**: Add urgency with time pressure\n- **Red Herrings**: Misdirect readers (especially in mystery)\n\n**4. Pacing Control**\n- **Action Scenes**: Fast-paced, short sentences\n- **Character Moments**: Slower, introspective scenes\n- **Dialogue**: Reveals character and advances plot\n- **Description**: Sets mood and atmosphere\n\nWhat\x27s your story\x27s central conflict? What genre conventions are you working with?"

/-- Canned block for keyword "pricing" of personality business_advisor. -/
def ba_pricing_block : String :=
  "Strategic SaaS pricing framework:\n\n**1. Value-Based Foundation**\n- **Customer ROI**: What measurable value do you deliver?\n- **Willingness to Pay**: Survey customers about price sensitivity\n- **Value Metrics**: Tie pricing to customer success metrics\n- **Competitor Analysis**: Research 5-10 direct competitors\n\n**2. Pricing Model Options**\n- **Per-Seat Pricing**: Good for team collaboration tools\n- **Usage-Based**: Align cost with customer value received\n- **Tiered Pricing**: Good/Better/Best options\n- **Freemium**: Free tier to drive adoption\n\n**3. Market Segmentation**\n- **SMB vs Enterprise**: Different needs, different budgets\n- **Geographic Pricing**: Consider regional purchasing power\n- **Vertical Pricing**: Industry-specific value propositions\n- **Customer Size**: Scale pricing with customer growth\n\n**4. Implementation Strategy**\n- **Start Higher**: Easier to lower than raise prices\n- **A/B Testing**: Test price points with small groups\n- **Annual Discounts**: Encourage longer commitments\n- **Grandfathering**: Protect existing customers during changes\n\nWhat problem does your product solve? What\x27s your target customer\x27s current budget for this solution?"

/-- Canned block for keyword "growth" of personality business_advisor. -/
def ba_growth_block : String :=
  "Sustainable SaaS growth framework:\n\n**1. Foundation First**\n- **Product-Market Fit**: Ensure strong customer retention (>90% annually)\n- **Unit Economics**: CAC should be <3x monthly revenue\n- **Customer Success**: Focus on onboarding and support\n- **Feedback Loops**: Continuous product improvement\n\n**2. Growth Channels**\n- **Content Marketing**: SEO, blogs, thought leadership\n- **Paid Acquisition**: Google Ads, LinkedIn, Facebook\n- **Partnerships**: Integration partners, referral programs\n- **Product-Led Growth**: Viral mechanics, self-service signup\n\n**3. Optimization Strategy**\n- **Conversion Funnel**: Optimize each stage of customer journey\n- **Cohort Analysis**: Track customer behavior over time\n- **A/B Testing**: Continuously test messaging and features\n- **Customer Segmentation**: Personalize experience by segment\n\n**4. Scaling Considerations**\n- **Team Building**: Hire ahead of growth curves\n- **Systems & Processes**: Automate repetitive tasks\n- **Financial Planning**: Manage cash flow and runway\n- **Risk Management**: Diversify customer base and revenue\n\nWhat\x27s your current Monthly Recurring Revenue (MRR)? What\x27s your biggest growth bottleneck right now?"

/-- Canned block for keyword "strategy" of personality business_advisor. -/
def ba_strategy_block : String :=
  "Strategic business planning methodology:\n\n**1. Market Analysis**\n- **Total Addressable Market (TAM)**: How big is the opportunity?\n- **Serviceable Addressable Market (SAM)**: What portion can you target?\n- **Market Trends**: Is the market growing or contracting?\n- **Competitive Landscape**: Who are the major players?\n\n**2. Competitive Positioning**\n- **Unique Value Proposition**: What makes you different?\n- **Competitive Advantages**: What\x27s defensible long-term?\n- **SWOT Analysis**: Strengths, weaknesses, opportunities, threats\n- **Blue Ocean Strategy**: Create uncontested market space\n\n**3. Strategic Options**\n- **Market Penetration**: Grow share in existing markets\n- **Market Development**: Enter new geographic/demographic markets\n- **Product Development**: Create new offerings for existing customers\n- **Diversification**: New products for new markets\n\n**4. Execution Planning**\n- **OKRs**: Objectives and Key Results framework\n- **Resource Allocation**: Budget, team, time priorities\n- **Risk Assessment**: Identify and mitigate key risks\n- **Success Metrics**: Define measurable outcomes\n\nWhat\x27s your primary strategic challenge? Are you looking to scale existing business or explore new opportunities?"

/-- A personality entry of working_chatbot.py: display name, description, and the
insertion-ordered keyword-to-canned-block table. -/
structure Personality where
  name : String
  description : String
  responses : List (String × String)
deriving DecidableEq

/-- The technical_expert personality entry. -/
def te_personality : Personality :=
  ⟨"Technical Expert", "Senior software engineer and system architect",
   [("memory", te_memory_block), ("performance", te_performance_block),
    ("debug", te_debug_block)]⟩

/-- The creative_partner personality entry. -/
def cp_personality : Personality :=
  ⟨"Creative Writing Partner", "Award-winning creative writing mentor",
   [("story", cp_story_block), ("character", cp_character_block),
    ("plot", cp_plot_block)]⟩

/-- The business_advisor personality entry. -/
def ba_personality : Personality :=
  ⟨"Business Strategy Consultant",
   "Senior management consultant with Fortune 500 experience",
   [("pricing", ba_pricing_block), ("growth", ba_growth_block),
    ("strategy", ba_strategy_block)]⟩

/-- The static personality catalog (`M1ChatbotSystem._load_personalities`),
in the dictionary insertion order of the source. -/
def personalities : List (String × Personality) :=
  [("technical_expert", te_personality),
   ("creative_partner", cp_personality),
   ("business_advisor", ba_personality)]

/-- A prompt-technique entry: the fixed prefix text (field "prefix" in the
source, renamed because \x60prefix\x60 is a Lean keyword) and description. -/
structure Technique where
  prefixText : String
  description : String
deriving DecidableEq

/-- The static technique catalog (`M1ChatbotSystem._load_prompt_techniques`). -/
def prompt_techniques : List (String × Technique) :=
  [("chain_of_thought",
    ⟨"Let me think through this systematically, step by step:\n\n",
     "Breaks down complex problems into logical steps"⟩),
   ("few_shot",
    ⟨"Based on similar situations I\x27ve encountered:\n\n",
     "Uses examples to demonstrate problem-solving approach"⟩),
   ("step_by_step",
    ⟨"I\x27ll break this down into clear, actionable steps:\n\n",
     "Provides structured, sequential guidance"⟩),
   ("socratic",
    ⟨"Let me help you explore this through guided questions:\n\n",
     "Uses questions to guide thinking and discovery"⟩),
   ("analogical",
    ⟨"Let me explain this using analogies to make it clearer:\n\n",
     "Uses comparisons and metaphors for understanding"⟩)]

/-- The per-personality generic fallback texts (the `defaults` dict inside
`M1ChatbotSystem.chat`). -/
def technical_expert_default : String :=
  "I can help with technical challenges! Share more details about your specific issue - error messages, system specs, or performance metrics would be helpful for me to provide targeted solutions."

/-- Generic fallback of creative_partner (`defaults` in `chat`). -/
def creative_partner_default : String :=
  "That sounds like an exciting creative project! What aspect would you like to explore first - character development, plot structure, world-building, or writing techniques?"

/-- Generic fallback of business_advisor (`defaults` in `chat`). -/
def business_advisor_default : String :=
  "Great business question! To provide strategic advice, could you share more context about your industry, target market, current business stage, and specific challenges you\x27re facing?"

/-- The `defaults` dict of `M1ChatbotSystem.chat`. -/
def chat_defaults : List (String × String) :=
  [("technical_expert", technical_expert_default),
   ("creative_partner", creative_partner_default),
   ("business_advisor", business_advisor_default)]

/-- Default of `defaults.get(personality, ...)` in `M1ChatbotSystem.chat`. -/
def generic_default : String :=
  "I\x27d be happy to help! Could you provide more details about what you\x27re looking for?"

/-- One conversation turn.  User turns carry a technique, assistant turns a
processing time and personality; the other fields are none, mirroring the two
dict shapes appended by `M1ChatbotSystem.chat`. -/
structure Turn where
  role : String
  content : String
  timestamp : Int
  technique : Option String
  processing_time : Option Int
  personality : Option String
deriving DecidableEq

/-- The per-session stats dict of working_chatbot.py. -/
structure SessionStats where
  total_messages : Nat
  total_processing_time : Int
deriving DecidableEq

/-- A stored session of working_chatbot.py. -/
structure Session where
  personality : String
  created_at : Int
  conversation : List Turn
  stats : SessionStats
deriving DecidableEq

/-- State of `M1ChatbotSystem`: the sessions dict, plus a history variable
recording every id `create_session` has returned in this process (used only to
state lifetime-uniqueness claims; it mirrors no runtime data). -/
structure ChatbotSystem where
  sessions : List (String × Session)
  generated_ids : List String
deriving DecidableEq

/-- The initial system state (`__init__`: `self.sessions = \x7b\x7d`). -/
def initSystem : ChatbotSystem := ⟨[], []⟩

/-- The id string built by `create_session`:
`f"session_\x7bint(time.time())\x7d_\x7bmd5(str(datetime.now()))[:8]\x7d"`.
`sec` is the observed whole second and `digest8` the truncated md5 hex digest
of the observed datetime string; both are clock-derived inputs here, and the
digest is an input because md5 itself is not re-implemented in this
development (equal datetime readings give equal digests). -/
def session_id_string (sec : Nat) (digest8 : String) : String :=
  "session_" ++ toString sec ++ "_" ++ digest8

/-- `M1ChatbotSystem.create_session` (default personality in the source is
"technical_expert"): build the id from the clock readings, store a fresh
session with empty conversation and zeroed stats, and return the id. -/
def create_session (st : ChatbotSystem) (personality : String) (sec : Nat)
    (digest8 : String) (now : Int) : String × ChatbotSystem :=
  let session_id := session_id_string sec digest8
  (session_id,
   ⟨dictInsert st.sessions session_id ⟨personality, now, [], ⟨0, 0⟩⟩,
    st.generated_ids ++ [session_id]⟩)

/-- The keyword scan of `M1ChatbotSystem.chat`: first canned block, in table
iteration order, whose keyword is a substring of the (lower-cased) message.
Matched canned blocks are all nonempty strings, so Python\x27s
`if not response` truthiness test coincides with this Option. -/
def firstMatchResponse : List (String × String) → String → Option String
  | [], _ => none
  | (keyword, template_response) :: rest, msg =>
    if strIn keyword msg then some template_response
    else firstMatchResponse rest msg

/-- The result dict returned by `M1ChatbotSystem.chat`. -/
structure ChatResult where
  response : String
  processing_time : Int
  technique : String
  personality : String
  session_id : String
deriving DecidableEq

/-- `M1ChatbotSystem.chat`.  Raises ValueError when the session id is unknown
(modelled as `Except.error`); an unknown session personality would raise
KeyError at `self.personalities[personality]`.  `now` and `processing_time`
stand for the wall-clock readings taken inside the call. -/
def chat (st : ChatbotSystem) (session_id user_message technique : String)
    (now processing_time : Int) : Except String (ChatResult × ChatbotSystem) :=
  match dictGet st.sessions session_id with
  | none => .error ("Session " ++ session_id ++ " not found")
  | some session =>
    match dictGet personalities session.personality with
    | none => .error ("KeyError: " ++ session.personality)
    | some personality_data =>
      let responses := personality_data.responses
      let technique_data :=
        (dictGet prompt_techniques technique).getD ⟨"", "Standard response"⟩
      let prefixText := technique_data.prefixText
      let user_message_lower := py_lower user_message
      let response :=
        match firstMatchResponse responses user_message_lower with
        | some template_response => prefixText ++ template_response
        | none =>
          prefixText ++
            ((dictGet chat_defaults session.personality).getD generic_default)
      let conversation2 :=
        session.conversation ++
          [⟨"user", user_message, now, some technique, none, none⟩,
           ⟨"assistant", response, now, none, some processing_time,
            some session.personality⟩]
      let session2 : Session :=
        ⟨session.personality, session.created_at, conversation2,
         ⟨session.stats.total_messages + 2,
          session.stats.total_processing_time + processing_time⟩⟩
      .ok (⟨response, processing_time, technique, session.personality,
            session_id⟩,
           ⟨dictInsert st.sessions session_id session2, st.generated_ids⟩)

/-- The response text a chat call produced, when it succeeded. -/
def chatResponse (st : ChatbotSystem) (session_id user_message technique : String)
    (now processing_time : Int) : Option String :=
  (chat st session_id user_message technique now processing_time).toOption.map
    (fun p => p.1.response)

/-- The prefix text `chat` applies for a technique id:
`self.prompt_techniques.get(technique, ...)["prefix"]`, empty for ids outside
the catalog (such as "standard"). -/
def technique_prefix_of (technique : String) : String :=
  ((dictGet prompt_techniques technique).getD ⟨"", "Standard response"⟩).prefixText

/-- The block produced for a message is the canned block of the first keyword,
in table iteration order, that is a substring of the (lower-cased) message. -/
def FirstKeywordMatch (responses : List (String × String))
    (msgLower block : String) : Prop :=
  ∃ before kw after,
    responses = before ++ (kw, block) :: after ∧
    strIn kw msgLower = true ∧
    ∀ p ∈ before, strIn p.1 msgLower = false

/-- A demo session reused by concrete instantiations below. -/
def demo_session : Session := ⟨"technical_expert", 0, [], ⟨0, 0⟩⟩

/-- A one-session store holding `demo_session` under id "s1". -/
def demo_store : ChatbotSystem := ⟨[("s1", demo_session)], ["s1"]⟩

/-- The operations the v1 HTTP layer performs on the session store:
session creation, chat (a no-op on the store when it raises), single-session
deletion (`DELETE /session/id`), and bulk clearing (`DELETE /sessions`). -/
inductive Op where
  | createOp (personality : String) (sec : Nat) (digest8 : String) (now : Int)
  | chatOp (session_id user_message technique : String) (now pt : Int)
  | deleteOp (session_id : String)
  | clearOp

/-- One step of the v1 system. -/
def applyOp (st : ChatbotSystem) : Op → ChatbotSystem
  | .createOp p sec digest8 now => (create_session st p sec digest8 now).2
  | .chatOp sid m t now pt =>
    match chat st sid m t now pt with
    | .ok r => r.2
    | .error _ => st
  | .deleteOp sid => ⟨dictErase st.sessions sid, st.generated_ids⟩
  | .clearOp => ⟨[], st.generated_ids⟩

/-- Running an operation sequence from the fresh system. -/
def runOps (ops : List Op) : ChatbotSystem := ops.foldl applyOp initSystem

/-- C10 invariant: every stored session counts its conversation exactly and
the conversation length is even. -/
def statsInvariant (st : ChatbotSystem) : Prop :=
  ∀ e ∈ st.sessions,
    e.2.stats.total_messages = e.2.conversation.length ∧
    Even e.2.conversation.length

/-- SmartFallbackGenerator canned text (src/advanced_llm.py), technical_expert
keyword "memory". -/
def sfg_technical_expert_memory : String :=
  "For Python API memory optimization, try: 1) Use generators instead of lists for large datasets, 2) Implement connection pooling, 3) Profile with memory_profiler, 4) Use __slots__ for classes, 5) Clear unused variables with del. What\x27s your current memory usage pattern?"

/-- SmartFallbackGenerator text, technical_expert keyword "performance". -/
def sfg_technical_expert_performance : String :=
  "API performance issues often stem from: 1) N+1 database queries, 2) Lack of caching, 3) Inefficient algorithms, 4) Blocking I/O operations. Can you share your API\x27s bottleneck metrics?"

/-- SmartFallbackGenerator text, technical_expert keyword "debug". -/
def sfg_technical_expert_debug : String :=
  "Let\x27s debug systematically: 1) Check logs for error patterns, 2) Use debugging tools like pdb or IDE debugger, 3) Add strategic print statements, 4) Test with minimal data. What error are you seeing?"

/-- SmartFallbackGenerator text, technical_expert keyword "python". -/
def sfg_technical_expert_python : String :=
  "For Python optimization: 1) Profile your code with cProfile, 2) Use list comprehensions instead of loops, 3) Implement proper exception handling, 4) Consider async/await for I/O operations. What specific Python issue are you facing?"

/-- SmartFallbackGenerator text, technical_expert keyword "api". -/
def sfg_technical_expert_api : String :=
  "API best practices: 1) Implement proper error handling and status codes, 2) Use pagination for large datasets, 3) Add rate limiting, 4) Document your endpoints clearly. What API challenge can I help you with?"

/-- SmartFallbackGenerator text, creative_partner keyword "story". -/
def sfg_creative_partner_story : String :=
  "For your story, consider: 1) Who\x27s your protagonist and what do they want? 2) What\x27s the central conflict or mystery? 3) What\x27s the setting\x27s unique atmosphere? 4) What themes will you explore? Let\x27s develop these elements together!"

/-- SmartFallbackGenerator text, creative_partner keyword "character". -/
def sfg_creative_partner_character : String :=
  "Strong characters need: 1) Clear motivation and goals, 2) Internal conflicts and flaws, 3) Distinctive voice and mannerisms, 4) Character growth arc. What type of character are you developing?"

/-- SmartFallbackGenerator text, creative_partner keyword "plot". -/
def sfg_creative_partner_plot : String :=
  "Plot development tips: 1) Start with inciting incident, 2) Build rising action with obstacles, 3) Create compelling climax, 4) Resolve with satisfying conclusion. What\x27s your story\x27s core conflict?"

/-- SmartFallbackGenerator text, creative_partner keyword "novel". -/
def sfg_creative_partner_novel : String :=
  "Novel structure approach: 1) Three-act structure with clear beginning, middle, end, 2) Character arcs that parallel plot progression, 3) Subplot development, 4) Pacing and tension management. What genre are you writing?"

/-- SmartFallbackGenerator text, creative_partner keyword "write". -/
def sfg_creative_partner_write : String :=
  "Writing techniques: 1) Show don\x27t tell through action and dialogue, 2) Use sensory details for immersion, 3) Vary sentence structure for rhythm, 4) Read your work aloud for flow. What aspect of writing would you like to improve?"

/-- SmartFallbackGenerator text, business_advisor keyword "pricing". -/
def sfg_business_advisor_pricing : String :=
  "SaaS pricing strategy: 1) Research competitor pricing, 2) Calculate your unit economics, 3) Test different price points, 4) Consider value-based pricing, 5) Plan for scaling. What\x27s your target customer segment?"

/-- SmartFallbackGenerator text, business_advisor keyword "strategy". -/
def sfg_business_advisor_strategy : String :=
  "Business strategy framework: 1) Analyze market opportunity, 2) Define competitive advantage, 3) Set measurable goals, 4) Identify key resources needed, 5) Plan execution timeline. What\x27s your primary business challenge?"

/-- SmartFallbackGenerator text, business_advisor keyword "growth". -/
def sfg_business_advisor_growth : String :=
  "Growth strategies: 1) Focus on customer retention first, 2) Optimize conversion funnel, 3) Expand to adjacent markets, 4) Build strategic partnerships, 5) Invest in customer success. What\x27s your current growth rate?"

/-- SmartFallbackGenerator text, business_advisor keyword "saas". -/
def sfg_business_advisor_saas : String :=
  "SaaS fundamentals: 1) Focus on Monthly Recurring Revenue (MRR), 2) Minimize customer churn, 3) Optimize Customer Acquisition Cost (CAC), 4) Maximize Lifetime Value (LTV). What SaaS metrics are you tracking?"

/-- SmartFallbackGenerator text, business_advisor keyword "startup". -/
def sfg_business_advisor_startup : String :=
  "Startup essentials: 1) Validate product-market fit, 2) Build minimum viable product (MVP), 3) Focus on customer feedback, 4) Manage cash flow carefully. What stage is your startup in?"

/-- SmartFallbackGenerator text, learning_tutor keyword "explain". -/
def sfg_learning_tutor_explain : String :=
  "Let me break this down step-by-step: 1) Start with the fundamental concepts, 2) Use real-world examples, 3) Build complexity gradually, 4) Practice with exercises. What specific topic would you like me to explain?"

/-- SmartFallbackGenerator text, learning_tutor keyword "learn". -/
def sfg_learning_tutor_learn : String :=
  "Effective learning strategies: 1) Active recall through self-testing, 2) Spaced repetition for retention, 3) Connect new knowledge to existing understanding, 4) Practice application in different contexts. What are you trying to learn?"

/-- SmartFallbackGenerator text, learning_tutor keyword "understand". -/
def sfg_learning_tutor_understand : String :=
  "To build understanding: 1) Break complex topics into smaller parts, 2) Use analogies and metaphors, 3) Ask questions to check comprehension, 4) Apply knowledge through practice. What concept are you struggling with?"

/-- SmartFallbackGenerator text, helpful_assistant keyword "help". -/
def sfg_helpful_assistant_help : String :=
  "I\x27d be happy to help you! To provide the most useful assistance: 1) Share more details about your specific situation, 2) Let me know what you\x27ve already tried, 3) Tell me what outcome you\x27re hoping for. What can I help you with?"

/-- SmartFallbackGenerator text, helpful_assistant keyword "question". -/
def sfg_helpful_assistant_question : String :=
  "That\x27s a great question! To give you the best answer: 1) I\x27ll consider multiple perspectives, 2) Provide practical solutions, 3) Suggest next steps you can take. What specific aspect would you like me to focus on?"

/-- SmartFallbackGenerator text, helpful_assistant keyword "assist". -/
def sfg_helpful_assistant_assist : String :=
  "I\x27m here to assist you! My approach is to: 1) Understand your needs clearly, 2) Provide actionable advice, 3) Offer alternative solutions, 4) Follow up to ensure success. How can I best support you?"

/-- SmartFallbackGenerator generic response of technical_expert. -/
def sfg_generic_technical_expert : String :=
  "I can help you with technical challenges! Could you provide more details about your specific issue, including any error messages or system specifications? I specialize in debugging, performance optimization, and system architecture."

/-- SmartFallbackGenerator generic response of creative_partner. -/
def sfg_generic_creative_partner : String :=
  "That sounds like an exciting creative project! Let\x27s brainstorm together. What aspect would you like to explore first - plot development, character creation, or setting? I\x27m here to help unlock your creative potential."

/-- SmartFallbackGenerator generic response of business_advisor. -/
def sfg_generic_business_advisor : String :=
  "Great business question! To provide the most relevant strategic advice, could you share more context about your industry, target market, and current business stage? I can help with pricing, growth strategy, and market analysis."

/-- SmartFallbackGenerator generic response of learning_tutor. -/
def sfg_generic_learning_tutor : String :=
  "I\x27m here to help you learn! Could you tell me more about your current understanding level and what specific aspect you\x27d like me to explain? I\x27ll break it down step-by-step and use examples to make it clear."

/-- SmartFallbackGenerator generic response of helpful_assistant. -/
def sfg_generic_helpful_assistant : String :=
  "I\x27d be happy to help you with that! Could you provide a bit more detail about what you\x27re looking for so I can give you the most useful response? I\x27m here to assist with information, analysis, and problem-solving."

/-- `SmartFallbackGenerator.personality_responses`, in source insertion
order. -/
def sfg_personality_responses : List (String × List (String × String)) :=
  [("technical_expert",
    [("memory", sfg_technical_expert_memory),
     ("performance", sfg_technical_expert_performance),
     ("debug", sfg_technical_expert_debug),
     ("python", sfg_technical_expert_python),
     ("api", sfg_technical_expert_api)]),
   ("creative_partner",
    [("story", sfg_creative_partner_story),
     ("character", sfg_creative_partner_character),
     ("plot", sfg_creative_partner_plot),
     ("novel", sfg_creative_partner_novel),
     ("write", sfg_creative_partner_write)]),
   ("business_advisor",
    [("pricing", sfg_business_advisor_pricing),
     ("strategy", sfg_business_advisor_strategy),
     ("growth", sfg_business_advisor_growth),
     ("saas", sfg_business_advisor_saas),
     ("startup", sfg_business_advisor_startup)]),
   ("learning_tutor",
    [("explain", sfg_learning_tutor_explain),
     ("learn", sfg_learning_tutor_learn),
     ("understand", sfg_learning_tutor_understand)]),
   ("helpful_assistant",
    [("help", sfg_helpful_assistant_help),
     ("question", sfg_helpful_assistant_question),
     ("assist", sfg_helpful_assistant_assist)])]

/-- The `generic_responses` table of
`SmartFallbackGenerator.generate_response`. -/
def sfg_generic_responses : List (String × String) :=
  [("technical_expert", sfg_generic_technical_expert),
   ("creative_partner", sfg_generic_creative_partner),
   ("business_advisor", sfg_generic_business_advisor),
   ("learning_tutor", sfg_generic_learning_tutor),
   ("helpful_assistant", sfg_generic_helpful_assistant)]

/-- `SmartFallbackGenerator.generate_response`: lower-case the message, scan
the personality\x27s keyword table in insertion order, fall back to the
per-personality generic response (default: helpful_assistant\x27s). -/
def sfg_generate (user_message personality : String) : String :=
  let message_lower := py_lower user_message
  let personality_responses :=
    (dictGet sfg_personality_responses personality).getD []
  match firstMatchResponse personality_responses message_lower with
  | some response => response
  | none =>
    (dictGet sfg_generic_responses personality).getD sfg_generic_helpful_assistant

/-- Python `s.strip()` on both ends (whitespace). -/
def py_strip (s : String) : String :=
  ⟨((s.data.dropWhile Char.isWhitespace).reverse.dropWhile
      Char.isWhitespace).reverse⟩

/-- The ordered list of free models `M1OptimizedLLM.load_model` tries. -/
def free_models : List String := ["distilgpt2", "gpt2"]

/-- The load-status part of `M1OptimizedLLM` state: the configured model name
(`LLMConfig.model_name`, updated to the model that loaded) and the
`is_loaded` flag.  Nothing else records a failed load in the source. -/
structure LLMState where
  model_name : String
  is_loaded : Bool
deriving DecidableEq

/-- `M1OptimizedLLM` right after `__init__` with the default `LLMConfig`. -/
def initial_llm_state : LLMState := ⟨"distilgpt2", false⟩

/-- `M1OptimizedLLM.load_model`: returns True immediately when already
loaded; otherwise tries the free models in order (`loads` says which would
succeed in the environment), records the first success in `model_name` and
`is_loaded`, and on total failure returns False with `is_loaded = False`. -/
def load_model (loads : String → Bool) (st : LLMState) : Bool × LLMState :=
  if st.is_loaded then (true, st)
  else
    match free_models.find? loads with
    | some name => (true, ⟨name, true⟩)
    | none => (false, ⟨st.model_name, false⟩)

/-- The last user-role message content (`user_messages[-1].content`,
empty when there is none), over (role, content) pairs. -/
def last_user_message (messages : List (String × String)) : String :=
  match (messages.filter (fun m => m.1 == "user")).getLast? with
  | some m => m.2
  | none => ""

/-- The personality sniffing of the load-failure path of
`generate_response` (lines 523-532): the first system message containing
"technical", "creative" or "business" decides; default helpful_assistant. -/
def sniff_personality_load_fail : List (String × String) → String
  | [] => "helpful_assistant"
  | (role, content) :: rest =>
    if role == "system" &&
        (strIn "technical" (py_lower content) ||
         strIn "creative" (py_lower content) ||
         strIn "business" (py_lower content)) then
      if strIn "technical" (py_lower content) then "technical_expert"
      else if strIn "creative" (py_lower content) then "creative_partner"
      else "business_advisor"
    else sniff_personality_load_fail rest

/-- The personality sniffing of the short-response path of
`generate_response` (lines 595-604): breaks on the first system message,
matching or not. -/
def sniff_personality_short : List (String × String) → String
  | [] => "helpful_assistant"
  | (role, content) :: rest =>
    if role == "system" then
      if strIn "technical" (py_lower content) then "technical_expert"
      else if strIn "creative" (py_lower content) then "creative_partner"
      else if strIn "business" (py_lower content) then "business_advisor"
      else "helpful_assistant"
    else sniff_personality_short rest

/-- The model-backed branch of `generate_response`.  The torch
format/tokenize/generate/decode/clean pipeline is abstracted as the input
`model_text` (its value is irrelevant to the claims settled here); the
source\x27s minimum-length guard is kept: a cleaned response shorter than 10
characters after stripping is replaced by the fallback generator\x27s text. -/
def model_path_response (model_text : String)
    (messages : List (String × String)) : String :=
  if (py_strip model_text).length < 10 then
    sfg_generate (last_user_message messages) (sniff_personality_short messages)
  else model_text

/-- Outcome of one `generate_response` call: the response text, whether the
call invoked `load_model`, and the LLM state afterwards. -/
structure GenOutcome where
  response : String
  attempted_load : Bool
  state : LLMState
deriving DecidableEq

/-- `M1OptimizedLLM.generate_response` over (role, content) message pairs:
when not loaded it first calls `load_model` (there is no memory of an earlier
failure other than `is_loaded = False`), and on load failure answers with the
`SmartFallbackGenerator` text for the last user message and the sniffed
personality. -/
def generate_response (loads : String → Bool) (model_text : String)
    (messages : List (String × String)) (st : LLMState) : GenOutcome :=
  if st.is_loaded then
    ⟨model_path_response model_text messages, false, st⟩
  else
    let r := load_model loads st
    if r.1 then ⟨model_path_response model_text messages, true, r.2⟩
    else
      ⟨sfg_generate (last_user_message messages)
         (sniff_personality_load_fail messages), true, r.2⟩

/-- Modelled from the spec: the `AdvancedChatbot` class imported by
src/api_server.py from advanced_llm.py is absent from the provided source
files (the file ends inside `M1OptimizedLLM.generate_response`).  Per the
spec\x27s data model, a chatbot owns its session id, fixed personality, and an
append-only message history; its `chat` appends one user and one assistant
turn, the assistant text produced by the deterministic fallback path when no
model is loaded.  Only the append-only shape matters to the claims below. -/
structure AdvancedChatbot where
  session_id : String
  personality : String
  messages : List (String × String)
deriving DecidableEq

/-- Modelled from the spec: `AdvancedChatbot.chat` appends the user turn and
an assistant turn to the owned history (turns are only appended after a
response string is finalized). -/
def advanced_chatbot_chat (cb : AdvancedChatbot)
    (user_message _technique : String) : AdvancedChatbot :=
  ⟨cb.session_id, cb.personality,
   cb.messages ++
     [("user", user_message),
      ("assistant", sfg_generate user_message cb.personality)]⟩

/-- Per-session metadata of `AdvancedSessionManager`. -/
structure SessionMeta where
  created_at : Int
  last_activity : Int
  personality : String
  config : List (String × String)
  request_count : Nat
deriving DecidableEq

/-- State of `AdvancedSessionManager` (src/api_server.py): the sessions dict
and the metadata dict. -/
structure AdvancedSessionManager where
  sessions : List (String × AdvancedChatbot)
  session_metadata : List (String × SessionMeta)
deriving DecidableEq

/-- The fresh manager. -/
def empty_manager : AdvancedSessionManager := ⟨[], []⟩

/-- `self.max_sessions = 100`. -/
def max_sessions : Nat := 100

/-- `self.session_timeout = timedelta(hours=4)`, in seconds. -/
def session_timeout : Int := 4 * 60 * 60

/-- The expired-session ids collected by `_cleanup_old_sessions`: those whose
time since last activity strictly exceeds the timeout. -/
def expired_ids (metadata : List (String × SessionMeta)) (now : Int) :
    List String :=
  (metadata.filter
    (fun p => decide (session_timeout < now - p.2.last_activity))).map Prod.fst

/-- Pop each id of the list from the dictionary. -/
def popAll {α : Type} (d : List (String × α)) (ids : List String) :
    List (String × α) :=
  ids.foldl (fun acc k => dictErase acc k) d

/-- `AdvancedSessionManager._cleanup_old_sessions`: collect the expired ids,
then pop each from both dicts.  `_periodic_cleanup` runs exactly this pass
every 30 minutes; `now` is the wall clock observed by the pass. -/
def cleanup_old_sessions (m : AdvancedSessionManager) (now : Int) :
    AdvancedSessionManager :=
  let expired := expired_ids m.session_metadata now
  ⟨popAll m.sessions expired, popAll m.session_metadata expired⟩

/-- `AdvancedSessionManager.create_session`: eager cleanup when the session
count has reached the cap, then store a fresh chatbot plus metadata.  The id
is produced by the `AdvancedChatbot` constructor (absent from the source), so
it is an input here; the LLMConfig plumbing is carried as `config`. -/
def create_session_v2 (m : AdvancedSessionManager) (personality : String)
    (config : List (String × String)) (session_id : String) (now : Int) :
    String × AdvancedSessionManager :=
  let m1 :=
    if max_sessions ≤ m.sessions.length then cleanup_old_sessions m now else m
  (session_id,
   ⟨dictInsert m1.sessions session_id ⟨session_id, personality, []⟩,
    dictInsert m1.session_metadata session_id
      ⟨now, now, personality, config, 0⟩⟩)

/-- `AdvancedSessionManager.get_session`: return the chatbot and refresh
last_activity / request_count.  (The source indexes the metadata dict
directly; the two dicts always share keys, the mismatch branch is
unreachable.) -/
def get_session_v2 (m : AdvancedSessionManager) (session_id : String)
    (now : Int) : Option AdvancedChatbot × AdvancedSessionManager :=
  match dictGet m.sessions session_id with
  | none => (none, m)
  | some cb =>
    match dictGet m.session_metadata session_id with
    | none => (some cb, m)
    | some meta =>
      (some cb,
       ⟨m.sessions,
        dictInsert m.session_metadata session_id
          ⟨meta.created_at, now, meta.personality, meta.config,
           meta.request_count + 1⟩⟩)

/-- The v2 `DELETE /sessions` handler (`clear_all_sessions`): clear both
dicts. -/
def clear_all_sessions_v2 (_m : AdvancedSessionManager) :
    AdvancedSessionManager := ⟨[], []⟩

/-- The v1 `DELETE /sessions` handler: `chatbot_system.sessions.clear()`. -/
def clear_all_sessions_v1 (st : ChatbotSystem) : ChatbotSystem :=
  ⟨[], st.generated_ids⟩

/-- One personality iteration of the v1 `POST /chat/compare` handler: create
a temporary session, chat on it, and delete it; on a chat exception the
handler logs and continues, leaving the temporary session in place. -/
def compare_step_v1 (st : ChatbotSystem) (personality message technique : String)
    (sec : Nat) (digest8 : String) (now pt : Int) : ChatbotSystem :=
  let r := create_session st personality sec digest8 now
  match chat r.2 r.1 message technique now pt with
  | .error _ => r.2
  | .ok p => ⟨dictErase p.2.sessions r.1, p.2.generated_ids⟩

/-- The v1 `POST /chat/compare` handler (api_server.py lines 274-304): fan
the message out over the three personalities, deleting each temporary
session.  Clock inputs are per-iteration. -/
def compare_personalities_v1 (st : ChatbotSystem) (message technique : String)
    (g1 g2 g3 : Nat × String) (now pt : Int) : ChatbotSystem :=
  compare_step_v1
    (compare_step_v1
      (compare_step_v1 st "technical_expert" message technique g1.1 g1.2 now pt)
      "creative_partner" message technique g2.1 g2.2 now pt)
    "business_advisor" message technique g3.1 g3.2 now pt

/-- One personality iteration of the v2 `POST /chat/compare` handler
(src/api_server.py lines 389-429): create a temporary session, fetch it, chat
on it — and return without any deletion. -/
def compare_step_v2 (m : AdvancedSessionManager)
    (personality session_id message technique : String) (now : Int) :
    AdvancedSessionManager :=
  let m1 := (create_session_v2 m personality [] session_id now).2
  match get_session_v2 m1 session_id now with
  | (none, m2) => m2
  | (some cb, m2) =>
    ⟨dictInsert m2.sessions session_id
       (advanced_chatbot_chat cb message technique),
     m2.session_metadata⟩

/-- The v2 `POST /chat/compare` handler over its five personalities, in
source order. -/
def compare_personalities_v2 (m : AdvancedSessionManager)
    (message technique : String) (id1 id2 id3 id4 id5 : String) (now : Int) :
    AdvancedSessionManager :=
  compare_step_v2
    (compare_step_v2
      (compare_step_v2
        (compare_step_v2
          (compare_step_v2 m "helpful_assistant" id1 message technique now)
          "technical_expert" id2 message technique now)
        "creative_partner" id3 message technique now)
      "business_advisor" id4 message technique now)
    "learning_tutor" id5 message technique now

/-- A 100-session manager at the cap, all sessions last active at time 0. -/
def cap_manager : AdvancedSessionManager :=
  ⟨(List.range 100).map
     (fun i => (toString i, ⟨toString i, "technical_expert", []⟩)),
   (List.range 100).map
     (fun i => (toString i, ⟨0, 0, "technical_expert", [], 0⟩))⟩

/-- A two-session manager: "old" last active at time 0, "fresh" at 10000. -/
def ttl_manager : AdvancedSessionManager :=
  ⟨[("old", ⟨"old", "technical_expert", []⟩),
    ("fresh", ⟨"fresh", "creative_partner", []⟩)],
   [("old", ⟨0, 0, "technical_expert", [], 0⟩),
    ("fresh", ⟨0, 10000, "creative_partner", [], 0⟩)]⟩

/-- Inserting then looking up the same key yields the inserted value. -/
theorem dictGet_insert_self {α : Type} (d : List (String × α)) (k : String)
    (v : α) : dictGet (dictInsert d k v) k = some v := by
  induction d with
  | nil => simp [dictInsert, dictGet]
  | cons e rest ih =>
    obtain ⟨k2, v2⟩ := e
    by_cases h : k2 = k
    · simp [dictInsert, h, dictGet]
    · simp [dictInsert, h, dictGet, ih]

/-- Lookup of a different key passes through an insertion. -/
theorem dictGet_insert_ne {α : Type} (d : List (String × α)) (k k2 : String)
    (v : α) (h : k2 ≠ k) : dictGet (dictInsert d k v) k2 = dictGet d k2 := by
  have hne : ¬ k = k2 := fun he => h he.symm
  induction d with
  | nil => simp [dictInsert, dictGet, hne]
  | cons e rest ih =>
    obtain ⟨k3, v3⟩ := e
    by_cases h3 : k3 = k
    · simp [dictInsert, dictGet, h3, hne]
    · by_cases h4 : k3 = k2 <;> simp [dictInsert, dictGet, h3, h4, h, ih]

/-- Re-inserting a key overwrites the previous insertion. -/
theorem dictInsert_insert {α : Type} (d : List (String × α)) (k : String)
    (v w : α) : dictInsert (dictInsert d k v) k w = dictInsert d k w := by
  induction d with
  | nil => simp [dictInsert]
  | cons e rest ih =>
    obtain ⟨k2, v2⟩ := e
    by_cases h : k2 = k
    · simp [dictInsert, h]
    · simp [dictInsert, h, ih]

/-- Erasing a key that was freshly inserted into a dictionary not containing
it restores the dictionary. -/
theorem dictErase_insert_of_fresh {α : Type} (d : List (String × α))
    (k : String) (v : α) (h : k ∉ d.map Prod.fst) :
    dictErase (dictInsert d k v) k = d := by
  induction d with
  | nil => simp [dictInsert, dictErase]
  | cons e rest ih =>
    obtain ⟨k2, v2⟩ := e
    simp only [List.map_cons, List.mem_cons] at h
    push_neg at h
    have h2 : ¬ k2 = k := fun he => h.1 he.symm
    simp [dictInsert, dictErase, h2, ih h.2]

/-- A successful lookup is a membership witness. -/
theorem dictGet_mem {α : Type} (d : List (String × α)) (k : String) (v : α)
    (h : dictGet d k = some v) : (k, v) ∈ d := by
  induction d with
  | nil => simp [dictGet] at h
  | cons e rest ih =>
    obtain ⟨k2, v2⟩ := e
    by_cases h2 : k2 = k
    · subst h2
      simp [dictGet] at h
      simp [h]
    · simp [dictGet, h2] at h
      exact List.mem_cons_of_mem _ (ih h)

/-- Membership after an insertion: the new pair or an old member. -/
theorem mem_dictInsert {α : Type} (d : List (String × α)) (k : String)
    (v : α) (e : String × α) (h : e ∈ dictInsert d k v) :
    e = (k, v) ∨ e ∈ d := by
  induction d with
  | nil =>
    simp [dictInsert] at h
    exact Or.inl h
  | cons f rest ih =>
    obtain ⟨k2, v2⟩ := f
    by_cases h2 : k2 = k
    · simp [dictInsert, h2] at h
      rcases h with h | h
      · exact Or.inl (by simp [h])
      · exact Or.inr (List.mem_cons_of_mem _ h)
    · simp [dictInsert, h2] at h
      rcases h with h | h
      · exact Or.inr (by simp [h])
      · rcases ih h with h3 | h3
        · exact Or.inl h3
        · exact Or.inr (List.mem_cons_of_mem _ h3)

/-- Erasure only removes entries. -/
theorem mem_dictErase {α : Type} (d : List (String × α)) (k : String)
    (e : String × α) (h : e ∈ dictErase d k) : e ∈ d := by
  induction d with
  | nil => simp [dictErase] at h
  | cons f rest ih =>
    obtain ⟨k2, v2⟩ := f
    by_cases h2 : k2 = k
    · simp [dictErase, h2] at h
      exact List.mem_cons_of_mem _ (ih h)
    · simp [dictErase, h2] at h
      rcases h with h | h
      · simp [h]
      · exact List.mem_cons_of_mem _ (ih h)

/-- The keyword-table scan finds some block as soon as any keyword of the
table is a substring of the message. -/
theorem firstMatchResponse_some_of_exists (rs : List (String × String))
    (msg : String) (h : ∃ p ∈ rs, strIn p.1 msg = true) :
    ∃ b, firstMatchResponse rs msg = some b := by
  induction rs with
  | nil => simp at h
  | cons e rest ih =>
    obtain ⟨kw, tr⟩ := e
    by_cases hm : strIn kw msg = true
    · exact ⟨tr, by simp [firstMatchResponse, hm]⟩
    · simp only [List.mem_cons] at h
      obtain ⟨p, hp, hmatch⟩ := h
      rcases hp with hp | hp
      · subst hp
        exact absurd hmatch hm
      · obtain ⟨b, hb⟩ := ih ⟨p, hp, hmatch⟩
        exact ⟨b, by simp [firstMatchResponse, hm, hb]⟩

/-- Correctness of the scan: a returned block is the first matching one. -/
theorem firstMatchResponse_spec (rs : List (String × String)) (msg b : String)
    (h : firstMatchResponse rs msg = some b) : FirstKeywordMatch rs msg b := by
  induction rs with
  | nil => simp [firstMatchResponse] at h
  | cons e rest ih =>
    obtain ⟨kw, tr⟩ := e
    by_cases hm : strIn kw msg = true
    · simp [firstMatchResponse, hm] at h
      exact ⟨[], kw, rest, by simp [h], hm, by simp⟩
    · simp [firstMatchResponse, hm] at h
      obtain ⟨before, kw2, after, he, hmatch, hnone⟩ := ih h
      refine ⟨(kw, tr) :: before, kw2, after, by simp [he], hmatch, ?_⟩
      intro p hp
      rcases List.mem_cons.mp hp with hp | hp
      · simp [hp]
        exact eq_false_of_ne_true hm
      · exact hnone p hp

/-- The scan returns nothing when no keyword matches. -/
theorem firstMatchResponse_none (rs : List (String × String)) (msg : String)
    (h : ∀ p ∈ rs, strIn p.1 msg = false) :
    firstMatchResponse rs msg = none := by
  induction rs with
  | nil => simp [firstMatchResponse]
  | cons e rest ih =>
    obtain ⟨kw, tr⟩ := e
    have h1 := h (kw, tr) (by simp)
    simp only at h1
    simp [firstMatchResponse, h1]
    exact ih fun p hp => h p (List.mem_cons_of_mem _ hp)

/-- C1: for every session with personality p, message m and technique t, if
the lower-cased m contains a keyword of p\x27s response table, `chat` returns
t\x27s prefix text concatenated with the canned block of the first keyword, in
table iteration order, that is a substring of the lower-cased m; the response
is a function of (p, m, t) alone. -/
theorem c1_keyword_dispatch (st : ChatbotSystem) (sid : String)
    (session : Session) (pdata : Personality) (m t : String) (now pt : Int)
    (h1 : dictGet st.sessions sid = some session)
    (h2 : dictGet personalities session.personality = some pdata)
    (h3 : ∃ p ∈ pdata.responses, strIn p.1 (py_lower m) = true) :
    ∃ block : String,
      FirstKeywordMatch pdata.responses (py_lower m) block ∧
      chatResponse st sid m t now pt = some (technique_prefix_of t ++ block) := by
  obtain ⟨b, hb⟩ := firstMatchResponse_some_of_exists _ _ h3
  refine ⟨b, firstMatchResponse_spec _ _ _ hb, ?_⟩
  simp [chatResponse, chat, h1, h2, hb, technique_prefix_of, Except.toOption]

/-- Witness for C1: the demo technical_expert session, the message
"my app has a memory leak" and technique "step_by_step". -/
theorem c1_keyword_dispatch_witness :
    (dictGet demo_store.sessions "s1" = some demo_session ∧
     dictGet personalities demo_session.personality = some te_personality ∧
     (∃ p ∈ te_personality.responses,
        strIn p.1 (py_lower "my app has a memory leak") = true)) ∧
    (∃ block : String,
      FirstKeywordMatch te_personality.responses
        (py_lower "my app has a memory leak") block ∧
      chatResponse demo_store "s1" "my app has a memory leak" "step_by_step" 3 2 =
        some (technique_prefix_of "step_by_step" ++ block)) :=
  ⟨⟨by decide, by decide, by decide⟩,
   c1_keyword_dispatch demo_store "s1" demo_session te_personality
     "my app has a memory leak" "step_by_step" 3 2
     (by decide) (by decide) (by decide)⟩

/-- C2 as stated is false: with a technique whose prefix is nonempty and a
message matching no keyword, `chat` returns the prefix concatenated with the
fallback, not exactly the personality\x27s generic fallback string.  Concrete
input: the demo technical_expert session, message "please advise" (no keyword
of the table is a substring), technique "chain_of_thought". -/
theorem c2_no_keyword_counterexample :
    (∀ p ∈ te_personality.responses,
       strIn p.1 (py_lower "please advise") = false) ∧
    chatResponse demo_store "s1" "please advise" "chain_of_thought" 0 0 ≠
      some technical_expert_default := by
  constructor
  · decide
  · decide

/-- C2 amended: on a message matching no keyword, `chat` returns the selected
technique\x27s prefix text concatenated with the personality\x27s generic
fallback string (so exactly the fallback precisely when the prefix is empty,
as for "standard" or any id outside the technique catalog). -/
theorem c2_no_keyword_fallback (st : ChatbotSystem) (sid : String)
    (session : Session) (pdata : Personality) (m t : String) (now pt : Int)
    (h1 : dictGet st.sessions sid = some session)
    (h2 : dictGet personalities session.personality = some pdata)
    (h3 : ∀ p ∈ pdata.responses, strIn p.1 (py_lower m) = false) :
    chatResponse st sid m t now pt =
      some (technique_prefix_of t ++
        ((dictGet chat_defaults session.personality).getD generic_default)) := by
  have hnone := firstMatchResponse_none _ _ h3
  simp [chatResponse, chat, h1, h2, hnone, technique_prefix_of, Except.toOption]

/-- Witness for C2 (amended): message "please advise" on the demo session with
technique "standard"; the response is the bare technical_expert fallback. -/
theorem c2_no_keyword_fallback_witness :
    (dictGet demo_store.sessions "s1" = some demo_session ∧
     dictGet personalities demo_session.personality = some te_personality ∧
     (∀ p ∈ te_personality.responses,
        strIn p.1 (py_lower "please advise") = false)) ∧
    chatResponse demo_store "s1" "please advise" "standard" 0 0 =
      some (technique_prefix_of "standard" ++
        ((dictGet chat_defaults demo_session.personality).getD generic_default)) :=
  ⟨⟨by decide, by decide, by decide⟩,
   c2_no_keyword_fallback demo_store "s1" demo_session te_personality
     "please advise" "standard" 0 0 (by decide) (by decide) (by decide)⟩

/-- C9: on a technical_expert session, the message "my app has a memory leak"
with technique "standard" yields exactly the "memory" canned block (empty
prefix), and with technique "chain_of_thought" the identical body preceded by
the chain-of-thought prefix string. -/
theorem c9_memory_leak_example :
    chatResponse demo_store "s1" "my app has a memory leak" "standard" 0 0 =
      some te_memory_block ∧
    chatResponse demo_store "s1" "my app has a memory leak" "chain_of_thought"
        0 0 =
      some ("Let me think through this systematically, step by step:\n\n" ++
        te_memory_block) := by
  constructor
  · decide
  · decide

/-- C7 as stated is false: `create_session` derives the id purely from the
observed whole second and the truncated digest of the observed datetime
string, and the code never checks for collisions.  Two calls that observe
identical clock readings (`datetime.now()` has microsecond granularity, so
consecutive calls can observe the same value, and md5 maps equal inputs to
equal digests) return an id already generated before. -/
theorem c7_unique_id_counterexample :
    (create_session
        (create_session initSystem "technical_expert" 1700000000 "0a1b2c3d" 0).2
        "creative_partner" 1700000000 "0a1b2c3d" 0).1 ∈
      (create_session initSystem "technical_expert" 1700000000 "0a1b2c3d" 0).2.generated_ids := by
  decide

/-- C7 amended: the id returned by `create_session` is a function of the
observed (second, digest) clock pair alone — so ids of two calls are distinct
whenever that textual pair differs, and only then; the code itself enforces no
freshness.  Immediately after creation, lookup of the returned id yields a
session with empty conversation (and zeroed stats), and the id is appended to
the process history of generated ids. -/
theorem c7_create_session_id (st : ChatbotSystem) (p : String) (sec : Nat)
    (digest8 : String) (now : Int) (sec2 : Nat) (digest2 : String)
    (hdiff : toString sec ++ "_" ++ digest8 ≠ toString sec2 ++ "_" ++ digest2) :
    (create_session st p sec digest8 now).1 = session_id_string sec digest8 ∧
    dictGet (create_session st p sec digest8 now).2.sessions
        (create_session st p sec digest8 now).1 = some ⟨p, now, [], ⟨0, 0⟩⟩ ∧
    (create_session st p sec digest8 now).2.generated_ids =
      st.generated_ids ++ [session_id_string sec digest8] ∧
    session_id_string sec digest8 ≠ session_id_string sec2 digest2 := by
  refine ⟨rfl, ?_, rfl, ?_⟩
  · simpa [create_session] using
      dictGet_insert_self st.sessions (session_id_string sec digest8)
        (⟨p, now, [], ⟨0, 0⟩⟩ : Session)
  · intro he
    apply hdiff
    have hd : ("session_" ++ (toString sec ++ "_" ++ digest8) : String) =
        "session_" ++ (toString sec2 ++ "_" ++ digest2) := by
      simpa [session_id_string, String.append_assoc] using he
    have hdata := congrArg String.data hd
    simp only [String.data_append] at hdata
    have := List.append_cancel_left hdata
    exact congrArg String.mk this

/-- Witness for C7 (amended): distinct digests under the same second. -/
theorem c7_create_session_id_witness :
    ((toString 1700000000 ++ "_" ++ "0a1b2c3d" : String) ≠
      toString 1700000000 ++ "_" ++ "ffffffff") ∧
    ((create_session initSystem "technical_expert" 1700000000 "0a1b2c3d" 5).1 =
        session_id_string 1700000000 "0a1b2c3d" ∧
     dictGet (create_session initSystem "technical_expert" 1700000000
           "0a1b2c3d" 5).2.sessions
         (create_session initSystem "technical_expert" 1700000000
           "0a1b2c3d" 5).1 =
       some ⟨"technical_expert", 5, [], ⟨0, 0⟩⟩ ∧
     (create_session initSystem "technical_expert" 1700000000
         "0a1b2c3d" 5).2.generated_ids =
       initSystem.generated_ids ++ [session_id_string 1700000000 "0a1b2c3d"] ∧
     session_id_string 1700000000 "0a1b2c3d" ≠
       session_id_string 1700000000 "ffffffff") :=
  ⟨by decide,
   c7_create_session_id initSystem "technical_expert" 1700000000 "0a1b2c3d" 5
     1700000000 "ffffffff" (by decide)⟩

/-- Preservation of the stats invariant by every single operation. -/
theorem statsInvariant_applyOp (st : ChatbotSystem) (op : Op)
    (h : statsInvariant st) : statsInvariant (applyOp st op) := by
  cases op with
  | createOp p sec digest8 now =>
    intro e he
    rcases mem_dictInsert _ _ _ _ he with he2 | he2
    · subst he2
      simp
    · exact h e he2
  | chatOp sid m t now pt =>
    intro e he
    simp only [applyOp] at he
    rcases hc : chat st sid m t now pt with err | r
    · rw [hc] at he
      exact h e he
    · rw [hc] at he
      simp only at he
      rcases hs : dictGet st.sessions sid with _ | session
      · simp [chat, hs] at hc
      · rcases hp : dictGet personalities session.personality with _ | pdata
        · simp [chat, hs, hp] at hc
        · simp only [chat, hs, hp] at hc
          obtain ⟨hc1, hc2⟩ := Prod.mk.injEq .. ▸ Except.ok.injEq .. ▸ hc
          rw [← hc2] at he
          rcases mem_dictInsert _ _ _ _ he with he2 | he2
          · subst he2
            have hinv := h (sid, session) (dictGet_mem _ _ _ hs)
            simp only at hinv
            obtain ⟨hlen, heven⟩ := hinv
            constructor
            · simp [hlen]
            · simp only [List.length_append, List.length_cons,
                List.length_nil]
              rw [Nat.even_iff] at heven ⊢
              omega
          · exact h e he2
  | deleteOp sid =>
    intro e he
    exact h e (mem_dictErase _ _ _ he)
  | clearOp =>
    intro e he
    simp [applyOp] at he

/-- C10: for every operation sequence of the v1 system — session creation,
chat, deletion, bulk clear — every stored session satisfies
stats.total_messages = conversation length, and that length is even: each
successful chat appends exactly one user and one assistant turn together and
adds 2 to total_messages. -/
theorem c10_stats_invariant (ops : List Op) : statsInvariant (runOps ops) := by
  have hrun : ∀ (l : List Op) (st : ChatbotSystem), statsInvariant st →
      statsInvariant (l.foldl applyOp st) := by
    intro l
    induction l with
    | nil => intro st h; exact h
    | cons op rest ih =>
      intro st h
      exact ih _ (statsInvariant_applyOp st op h)
  have hinit : statsInvariant initSystem := by
    intro e he
    simp [initSystem] at he
  exact hrun ops initSystem hinit

/-- Erasing a key removes it. -/
theorem dictGet_erase_self {α : Type} (d : List (String × α)) (k : String) :
    dictGet (dictErase d k) k = none := by
  induction d with
  | nil => simp [dictErase, dictGet]
  | cons e rest ih =>
    obtain ⟨k2, v2⟩ := e
    by_cases h : k2 = k
    · simp [dictErase, h, ih]
    · simp [dictErase, dictGet, h, ih]

/-- Erasure leaves other keys untouched. -/
theorem dictGet_erase_ne {α : Type} (d : List (String × α)) (k k2 : String)
    (h : k2 ≠ k) : dictGet (dictErase d k) k2 = dictGet d k2 := by
  have hne : ¬ k = k2 := fun he => h he.symm
  induction d with
  | nil => simp [dictErase]
  | cons e rest ih =>
    obtain ⟨k3, v3⟩ := e
    by_cases h3 : k3 = k
    · simp [dictErase, dictGet, h3, hne, ih]
    · by_cases h4 : k3 = k2 <;> simp [dictErase, dictGet, h3, h4, h, ih]

/-- Popping a list of keys: lookups answer none on popped keys and are
unchanged elsewhere. -/
theorem dictGet_popAll {α : Type} (ids : List String)
    (d : List (String × α)) (k : String) :
    dictGet (popAll d ids) k = if k ∈ ids then none else dictGet d k := by
  induction ids generalizing d with
  | nil => simp [popAll]
  | cons i is ih =>
    have hstep : popAll d (i :: is) = popAll (dictErase d i) is := rfl
    rw [hstep, ih]
    by_cases hk : k = i
    · subst hk
      by_cases hmem : k ∈ is
      · simp [hmem]
      · simp [hmem, dictGet_erase_self]
    · by_cases hmem : k ∈ is
      · simp [hmem, hk]
      · simp [hmem, hk, dictGet_erase_ne d i k hk]

/-- In a dictionary with distinct keys, membership of a pair coincides with
lookup. -/
theorem mem_iff_dictGet {α : Type} (d : List (String × α))
    (hnodup : (d.map Prod.fst).Nodup) (k : String) (v : α) :
    (k, v) ∈ d ↔ dictGet d k = some v := by
  induction d with
  | nil => simp [dictGet]
  | cons e rest ih =>
    obtain ⟨k2, v2⟩ := e
    simp only [List.map_cons, List.nodup_cons] at hnodup
    obtain ⟨hk2, hrest⟩ := hnodup
    by_cases h : k2 = k
    · subst h
      constructor
      · intro hm
        rcases List.mem_cons.mp hm with hm | hm
        · rw [dictGet]
          simp [Prod.ext_iff] at hm
          simp [hm]
        · exact absurd (List.mem_map_of_mem Prod.fst hm) hk2
      · intro hg
        simp [dictGet] at hg
        simp [hg]
    · constructor
      · intro hm
        rcases List.mem_cons.mp hm with hm | hm
        · exact absurd (congrArg Prod.fst hm).symm h
        · rw [dictGet]
          simp only [h, if_false]
          exact (ih hrest).mp hm
      · intro hg
        simp only [dictGet, h, if_false] at hg
        exact List.mem_cons_of_mem _ ((ih hrest).mpr hg)

/-- An id is collected as expired exactly when its metadata entry is older
than the timeout (keys are unique in a Python dict). -/
theorem mem_expired_ids (md : List (String × SessionMeta)) (now : Int)
    (id : String) (meta : SessionMeta)
    (hnodup : (md.map Prod.fst).Nodup)
    (h : dictGet md id = some meta) :
    id ∈ expired_ids md now ↔ session_timeout < now - meta.last_activity := by
  unfold expired_ids
  simp only [List.mem_map, List.mem_filter]
  constructor
  · rintro ⟨e, ⟨hmem, hpred⟩, hfst⟩
    obtain ⟨k2, v2⟩ := e
    simp only at hfst
    subst hfst
    have hget := (mem_iff_dictGet md hnodup k2 v2).mp hmem
    rw [h] at hget
    have hv : v2 = meta := by
      injection hget with hv
      exact hv.symm
    subst hv
    exact of_decide_eq_true hpred
  · intro hlt
    exact ⟨(id, meta), ⟨(mem_iff_dictGet md hnodup id meta).mpr h,
      decide_eq_true hlt⟩, rfl⟩

/-- C3: a cleanup pass removes a session (from both dicts) exactly when its
time since last activity strictly exceeds the 4-hour timeout, and leaves the
entries of every in-TTL session untouched. -/
theorem c3_cleanup_removes_iff_expired (m : AdvancedSessionManager)
    (now : Int) (id : String) (meta : SessionMeta)
    (hnodup : (m.session_metadata.map Prod.fst).Nodup)
    (h : dictGet m.session_metadata id = some meta) :
    (session_timeout < now - meta.last_activity →
      dictGet (cleanup_old_sessions m now).session_metadata id = none ∧
      dictGet (cleanup_old_sessions m now).sessions id = none) ∧
    (¬ session_timeout < now - meta.last_activity →
      dictGet (cleanup_old_sessions m now).session_metadata id = some meta ∧
      dictGet (cleanup_old_sessions m now).sessions id =
        dictGet m.sessions id) := by
  have hmem := mem_expired_ids m.session_metadata now id meta hnodup h
  constructor
  · intro hlt
    have hin : id ∈ expired_ids m.session_metadata now := hmem.mpr hlt
    constructor <;> simp [cleanup_old_sessions, dictGet_popAll, hin]
  · intro hlt
    have hout : id ∉ expired_ids m.session_metadata now :=
      fun hm => hlt (hmem.mp hm)
    constructor <;> simp [cleanup_old_sessions, dictGet_popAll, hout, h]

/-- The metadata entry of the "old" session of `ttl_manager`. -/
def old_meta : SessionMeta := ⟨0, 0, "technical_expert", [], 0⟩

/-- Witness for C3: at time 20000 the "old" session (last active at 0, so
20000 seconds inactive) exceeds the 14400-second timeout. -/
theorem c3_cleanup_removes_iff_expired_witness :
    ((ttl_manager.session_metadata.map Prod.fst).Nodup ∧
     dictGet ttl_manager.session_metadata "old" = some old_meta) ∧
    ((session_timeout < 20000 - old_meta.last_activity →
      dictGet (cleanup_old_sessions ttl_manager 20000).session_metadata "old" =
        none ∧
      dictGet (cleanup_old_sessions ttl_manager 20000).sessions "old" = none) ∧
    (¬ session_timeout < 20000 - old_meta.last_activity →
      dictGet (cleanup_old_sessions ttl_manager 20000).session_metadata "old" =
        some old_meta ∧
      dictGet (cleanup_old_sessions ttl_manager 20000).sessions "old" =
        dictGet ttl_manager.sessions "old")) :=
  ⟨⟨by decide, by decide⟩,
   c3_cleanup_removes_iff_expired ttl_manager 20000 "old" old_meta
     (by decide) (by decide)⟩

/-- C5: when `create_session` is entered with the live-session count at the
cap (100) or above, the eager cleanup pass runs before the insertion — the
new state is the cleaned state plus the fresh session — and the eviction it
performs is oldest-inactive-first: every evicted session was strictly less
recently active than every retained one. -/
theorem c5_cap_triggers_eager_cleanup (m : AdvancedSessionManager)
    (p : String) (config : List (String × String)) (sid : String) (now : Int)
    (hcap : max_sessions ≤ m.sessions.length) :
    (create_session_v2 m p config sid now).2.sessions =
      dictInsert (cleanup_old_sessions m now).sessions sid ⟨sid, p, []⟩ ∧
    (create_session_v2 m p config sid now).2.session_metadata =
      dictInsert (cleanup_old_sessions m now).session_metadata sid
        ⟨now, now, p, config, 0⟩ ∧
    ∀ e ∈ m.session_metadata.filter
        (fun q => decide (session_timeout < now - q.2.last_activity)),
      ∀ f ∈ m.session_metadata.filter
          (fun q => ! decide (session_timeout < now - q.2.last_activity)),
        e.2.last_activity < f.2.last_activity := by
  refine ⟨by simp [create_session_v2, hcap], by simp [create_session_v2, hcap], ?_⟩
  intro e he f hf
  simp only [List.mem_filter] at he hf
  have h1 : session_timeout < now - e.2.last_activity := of_decide_eq_true he.2
  have h2 : ¬ session_timeout < now - f.2.last_activity := by
    have hb := hf.2
    simp only [Bool.not_eq_true'] at hb
    exact of_decide_eq_false hb
  simp only [session_timeout] at h1 h2
  omega

/-- Witness for C5: `cap_manager` holds exactly 100 sessions. -/
theorem c5_cap_triggers_eager_cleanup_witness :
    (max_sessions ≤ cap_manager.sessions.length) ∧
    ((create_session_v2 cap_manager "creative_partner" [] "new" 5).2.sessions =
      dictInsert (cleanup_old_sessions cap_manager 5).sessions "new"
        ⟨"new", "creative_partner", []⟩ ∧
    (create_session_v2 cap_manager "creative_partner" [] "new" 5).2.session_metadata =
      dictInsert (cleanup_old_sessions cap_manager 5).session_metadata "new"
        ⟨5, 5, "creative_partner", [], 0⟩ ∧
    ∀ e ∈ cap_manager.session_metadata.filter
        (fun q => decide (session_timeout < 5 - q.2.last_activity)),
      ∀ f ∈ cap_manager.session_metadata.filter
          (fun q => ! decide (session_timeout < 5 - q.2.last_activity)),
        e.2.last_activity < f.2.last_activity) :=
  ⟨by decide,
   c5_cap_triggers_eager_cleanup cap_manager "creative_partner" [] "new" 5
     (by decide)⟩

/-- C4 as stated is false: a failed load is recorded only as
`is_loaded = False`, so the very next `generate_response` call — whose guard
is `if not self.is_loaded` — invokes `load_model` again.  Concrete input: an
environment in which no free model loads; after the first failed
`load_model`, a `generate_response` call still attempts a load. -/
theorem c4_failure_not_remembered_counterexample :
    (load_model (fun _ => false) initial_llm_state).1 = false ∧
    (load_model (fun _ => false) initial_llm_state).2 = initial_llm_state ∧
    (generate_response (fun _ => false) "" [("user", "hello")]
        (load_model (fun _ => false) initial_llm_state).2).attempted_load =
      true := by
  refine ⟨by decide, by decide, by decide⟩

/-- C4 amended: nothing remembers a failed load beyond `is_loaded = False`;
every `generate_response` call in an unloaded state re-attempts the load, and
whenever every load attempt fails again the request is answered by the
deterministic `SmartFallbackGenerator` responder and the state stays
unloaded. -/
theorem c4_unloaded_generate_behavior (loads : String → Bool)
    (model_text : String) (messages : List (String × String)) (st : LLMState)
    (hnl : st.is_loaded = false) :
    (generate_response loads model_text messages st).attempted_load = true ∧
    ((∀ name ∈ free_models, loads name = false) →
      (generate_response loads model_text messages st).response =
        sfg_generate (last_user_message messages)
          (sniff_personality_load_fail messages) ∧
      (generate_response loads model_text messages st).state.is_loaded =
        false) := by
  constructor
  · simp only [generate_response]
    rw [if_neg (show ¬ st.is_loaded = true by simp [hnl])]
    split <;> rfl
  · intro hall
    have hf : free_models.find? loads = none :=
      List.find?_eq_none.mpr (fun x hx => by simp [hall x hx])
    simp [generate_response, hnl, load_model, hf]

/-- Witness for C4 (amended): the state right after a failed load attempt,
in an environment where no model loads. -/
theorem c4_unloaded_generate_behavior_witness :
    ((load_model (fun _ => false) initial_llm_state).2.is_loaded = false ∧
     (∀ name ∈ free_models, (fun _ => false : String → Bool) name = false)) ∧
    ((generate_response (fun _ => false) "" [("user", "hello")]
        (load_model (fun _ => false) initial_llm_state).2).attempted_load =
      true ∧
     (generate_response (fun _ => false) "" [("user", "hello")]
        (load_model (fun _ => false) initial_llm_state).2).response =
       sfg_generate (last_user_message [("user", "hello")])
         (sniff_personality_load_fail [("user", "hello")]) ∧
     (generate_response (fun _ => false) "" [("user", "hello")]
        (load_model (fun _ => false) initial_llm_state).2).state.is_loaded =
       false) :=
  ⟨⟨by decide, by decide⟩,
   have h := c4_unloaded_generate_behavior (fun _ => false) ""
     [("user", "hello")] (load_model (fun _ => false) initial_llm_state).2
     (by decide)
   ⟨h.1, (h.2 (by decide)).1, (h.2 (by decide)).2⟩⟩

/-- One v1 compare iteration restores the session store when the generated
temporary id is fresh: the personality is valid, so chat succeeds, and the
temporary entry is deleted. -/
theorem compare_step_v1_sessions (st : ChatbotSystem) (p : String)
    (pdata : Personality) (m t : String) (sec : Nat) (d8 : String)
    (now pt : Int)
    (hp : dictGet personalities p = some pdata)
    (hfresh : session_id_string sec d8 ∉ st.sessions.map Prod.fst) :
    (compare_step_v1 st p m t sec d8 now pt).sessions = st.sessions := by
  rcases hfm : firstMatchResponse pdata.responses (py_lower m) with _ | block
  all_goals
    simp only [compare_step_v1, create_session, chat, dictGet_insert_self,
      hp, hfm]
    rw [dictInsert_insert]
    exact dictErase_insert_of_fresh _ _ _ hfresh

/-- C6 amended, v1 half: the v1 compare endpoint creates one throwaway
session per personality and deletes each before returning, so when the three
generated ids are fresh the session store is exactly what it was. -/
theorem c6_compare_v1_discards (st : ChatbotSystem) (m t : String)
    (g1 g2 g3 : Nat × String) (now pt : Int)
    (h1 : session_id_string g1.1 g1.2 ∉ st.sessions.map Prod.fst)
    (h2 : session_id_string g2.1 g2.2 ∉ st.sessions.map Prod.fst)
    (h3 : session_id_string g3.1 g3.2 ∉ st.sessions.map Prod.fst) :
    (compare_personalities_v1 st m t g1 g2 g3 now pt).sessions =
      st.sessions := by
  have e1 :
      (compare_step_v1 st "technical_expert" m t g1.1 g1.2 now pt).sessions =
        st.sessions :=
    compare_step_v1_sessions st "technical_expert" te_personality m t g1.1
      g1.2 now pt rfl h1
  have e2 :
      (compare_step_v1
        (compare_step_v1 st "technical_expert" m t g1.1 g1.2 now pt)
        "creative_partner" m t g2.1 g2.2 now pt).sessions = st.sessions := by
    rw [compare_step_v1_sessions _ "creative_partner" cp_personality m t g2.1
      g2.2 now pt rfl (by rw [e1]; exact h2)]
    exact e1
  have e3 :
      (compare_personalities_v1 st m t g1 g2 g3 now pt).sessions =
        st.sessions := by
    unfold compare_personalities_v1
    rw [compare_step_v1_sessions _ "business_advisor" ba_personality m t g3.1
      g3.2 now pt rfl (by rw [e2]; exact h3)]
    exact e2
  exact e3

/-- Witness for C6 (amended, v1 half): comparing from the empty store with
three fresh clock pairs leaves the store empty. -/
theorem c6_compare_v1_discards_witness :
    (session_id_string 10 "aa" ∉ initSystem.sessions.map Prod.fst ∧
     session_id_string 11 "bb" ∉ initSystem.sessions.map Prod.fst ∧
     session_id_string 12 "cc" ∉ initSystem.sessions.map Prod.fst) ∧
    (compare_personalities_v1 initSystem "help me debug this" "socratic"
        (10, "aa") (11, "bb") (12, "cc") 0 0).sessions =
      initSystem.sessions :=
  ⟨⟨by decide, by decide, by decide⟩,
   c6_compare_v1_discards initSystem "help me debug this" "socratic"
     (10, "aa") (11, "bb") (12, "cc") 0 0 (by decide) (by decide) (by decide)⟩

/-- C6 as stated is false for the advanced server: its compare endpoint
(src/api_server.py lines 389-429) creates one temporary session per
personality and never removes any of them, so the stored session set after
the request differs from the set before.  Concrete input: the empty manager,
message "hello": afterwards all five throwaway sessions remain stored. -/
theorem c6_compare_v2_retains_counterexample :
    (compare_personalities_v2 empty_manager "hello" "standard"
        "t1" "t2" "t3" "t4" "t5" 0).sessions.map Prod.fst =
      ["t1", "t2", "t3", "t4", "t5"] ∧
    empty_manager.sessions.map Prod.fst = ([] : List String) := by
  refine ⟨by decide, by decide⟩

/-- C8: after the clear-all-sessions operation (of either server generation)
the stored session count is 0 and lookup of any id — in particular any
previously valid one — answers absent; the advanced server also clears the
metadata dict. -/
theorem c8_clear_all_sessions (st : ChatbotSystem)
    (m2 : AdvancedSessionManager) (id : String) :
    (clear_all_sessions_v1 st).sessions.length = 0 ∧
    dictGet (clear_all_sessions_v1 st).sessions id = none ∧
    (clear_all_sessions_v2 m2).sessions.length = 0 ∧
    dictGet (clear_all_sessions_v2 m2).sessions id = none ∧
    dictGet (clear_all_sessions_v2 m2).session_metadata id = none := by
  simp [clear_all_sessions_v1, clear_all_sessions_v2, dictGet]

end ChatbotPro
